import Mathlib

/-!
Verification development for the `image_processor.py` command-line pipeline
(`src/assets/python_processor/image_processor.py`).

The program is a single-threaded, synchronous pipeline:
validate input path → decode → four filters → watermark overlay → save →
success record, with two except-clauses mapping exceptions to structured
stderr records and return codes, and a `main` wrapper validating the
argument count.

The embedding models one invocation against a fixed environment `Env`
describing the outcome of every fallible library call (decode, filters,
font loads, text measurement/drawing, save) and the byte size the written
output file ends up with.  Pure arithmetic (font size, shadow offsets,
text centering, size rounding) is embedded directly from the source.
-/

namespace ImageProcessor

/-- A Python exception value as seen by the except-clauses of
`process_image`: its class name (`type(e).__name__`), whether it is an
instance of `FileNotFoundError` (what `except FileNotFoundError` matches
on), and its `str(e)` message. -/
structure PyExc where
  ty : String
  isFNF : Bool
  msg : String
deriving Repr, DecidableEq

/-- The `details` object of the final success record. -/
structure SuccessDetails where
  input_path : String
  output_path : String
  dimensions : String
  file_size_mb : ℚ
deriving Repr, DecidableEq

/-- One structured status record, as serialized by `json.dumps` to stdout
or stderr: the `status` tag, the human-readable `message`, and the
optional `error_type` / `details` fields. -/
structure StatusRecord where
  status : String
  message : String
  error_type : Option String
  details : Option SuccessDetails
deriving Repr, DecidableEq

/-- One `draw.text` call recorded with its position, text and RGBA fill. -/
structure DrawCall where
  px : Int
  py : Int
  text : String
  fill : Nat × Nat × Nat × Nat
deriving Repr, DecidableEq

/-- The font handle chosen by the fallback chain of `process_image`. -/
inductive Font where
  | truetypeA (size : Nat)
  | truetypeB (size : Nat)
  | defaultFont
deriving Repr, DecidableEq

/-- The environment one invocation runs against: the (static) state of the
filesystem and of the imaging backend.  Each fallible library call of the
pipeline is modelled by its outcome in this environment: `decode` is
`Image.open` plus `.size`, `filters` a possible exception from the filter
stage, `fontAOk` / `fontBOk` whether the two `ImageFont.truetype` loads
succeed, `textbbox` the measured bounding box for the chosen font,
`drawFail` a possible exception from measuring/drawing, `saveFail` a
possible exception from `img.save`, and `outputSize` the byte size
`os.path.getsize` reports for the file after a successful save. -/
structure Env where
  inputExists : Bool
  decode : Except PyExc (Nat × Nat)
  filters : Option PyExc
  fontAOk : Bool
  fontBOk : Bool
  textbbox : Font → Int × Int × Int × Int
  drawFail : Option PyExc
  saveFail : Option PyExc
  outputSize : Nat

/-- The observable outcome of one `process_image` / `main` call: the
records printed to stdout and to stderr in order, the `draw.text` calls
issued, whether saving the output file was ever attempted, and the
return code. -/
structure POut where
  stdout : List StatusRecord
  stderr : List StatusRecord
  draws : List DrawCall
  saveAttempted : Bool
  ret : Nat
deriving Repr, DecidableEq

def loadingRec : StatusRecord :=
  { status := "loading", message := "Loading image...",
    error_type := none, details := none }

/-- The dimensions string `"{width}x{height}"`. -/
def dimsString (width height : Nat) : String :=
  toString width ++ "x" ++ toString height

def infoRec (width height : Nat) : StatusRecord :=
  { status := "info",
    message := "Image loaded: " ++ dimsString width height ++ " pixels",
    error_type := none, details := none }

def filtersRec : StatusRecord :=
  { status := "processing", message := "Applying filters...",
    error_type := none, details := none }

def overlayRec : StatusRecord :=
  { status := "processing", message := "Adding text overlay...",
    error_type := none, details := none }

def savingRec : StatusRecord :=
  { status := "saving", message := "Saving processed image...",
    error_type := none, details := none }

def successRec (input_path output_path : String) (width height : Nat) (mb : ℚ) :
    StatusRecord :=
  { status := "success", message := "Image processed successfully",
    error_type := none,
    details := some { input_path := input_path, output_path := output_path,
                      dimensions := dimsString width height,
                      file_size_mb := mb } }

/-- Embeds `font_size = int(height * 0.05)`.  The Python literal `0.05` is
the IEEE-754 double 3602879701896397 / 2^56 (the nearest double to 1/20,
larger than it by 1 / (5 * 2^56)); `int` truncates toward zero, and the
product is nonnegative, so the result is the floor of the product.  For
every height below 2^52 the rounding of the float product to a double
cannot move it across an integer (the product is below 2^48, so half an
ulp is at most 2^(-6), smaller than the distance from the exact product to
the nearest integer above it, and the integer below it is exactly
representable), hence the exact floor written here agrees with the Python
value for all realistic image heights. -/
def fontSizeOf (height : Nat) : Nat := height * 3602879701896397 / 2 ^ 56

/-- The font fallback chain of `process_image`: try truetype `arial.ttf`;
on any failure try truetype `Arial.ttf`; on any failure fall back to the
built-in default font (`ImageFont.load_default`), which cannot fail. -/
def loadFont (aOk bOk : Bool) (size : Nat) : Font :=
  if aOk then Font.truetypeA size
  else if bOk then Font.truetypeB size
  else Font.defaultFont

def watermarkText : String := "SATORU GOJO"

/-- Embeds `shadow_offset = max(2, font_size // 30)`. -/
def shadowOffset (font_size : Nat) : Nat := max 2 (font_size / 30)

/-- Embeds Python `range(-s, s + 1)` as the list `[-s, ..., s]`. -/
def offsetRange (s : Nat) : List Int :=
  (List.range (2 * s + 1)).map (fun i : Nat => (i : Int) - (s : Int))

/-- One shadow draw: the watermark text in fully opaque black. -/
def blackDraw (px py : Int) : DrawCall :=
  { px := px, py := py, text := watermarkText, fill := (0, 0, 0, 255) }

/-- The main text draw: fully opaque RGB (200, 230, 255). -/
def mainDraw (px py : Int) : DrawCall :=
  { px := px, py := py, text := watermarkText, fill := (200, 230, 255, 255) }

/-- Embeds the nested shadow loops of `process_image`: for `offset_x` in
`range(-s, s+1)`, for `offset_y` in `range(-s, s+1)`, skipping
`(0, 0)`, draw the text at `(x + offset_x, y + offset_y)` in opaque
black, in program order. -/
def shadowDraws (x y : Int) (s : Nat) : List DrawCall :=
  (offsetRange s).flatMap (fun dx =>
    (offsetRange s).filterMap (fun dy =>
      if dx ≠ 0 ∨ dy ≠ 0 then some (blackDraw (x + dx) (y + dy)) else none))

/-- All `draw.text` calls of the overlay stage, in program order: the
shadow ring first, then the main text at `(x, y)`. -/
def drawStage (x y : Int) (s : Nat) : List DrawCall :=
  shadowDraws x y s ++ [mainDraw x y]

/-- The text measurement and centering arithmetic of `process_image`, for
a measured bounding box `(left, top, right, bottom)`:
`text_width = right - left`, `text_height = bottom - top`,
`x = (width - text_width) // 2`, `y = (height - text_height) // 2`,
Python `//` being floor division (`Int.fdiv`). -/
structure TextLayout where
  text_width : Int
  text_height : Int
  x : Int
  y : Int
deriving Repr, DecidableEq

def textLayout (width height : Nat) (bbox : Int × Int × Int × Int) : TextLayout :=
  { text_width := bbox.2.2.1 - bbox.1,
    text_height := bbox.2.2.2 - bbox.2.1,
    x := Int.fdiv ((width : Int) - (bbox.2.2.1 - bbox.1)) 2,
    y := Int.fdiv ((height : Int) - (bbox.2.2.2 - bbox.2.1)) 2 }

/-- Round to an integer, ties to even: the rounding Python `round` uses. -/
def roundHalfEven (q : ℚ) : Int :=
  if Int.fract q < 1 / 2 then ⌊q⌋
  else if 1 / 2 < Int.fract q then ⌊q⌋ + 1
  else if ⌊q⌋ % 2 = 0 then ⌊q⌋ else ⌊q⌋ + 1

/-- Embeds `round(file_size / (1024 * 1024), 2)`.  The quotient of a byte
count below 2^53 by 2^20 is exactly representable as a double, and Python
`round` with `ndigits = 2` rounds that exact value to the nearest multiple
of 1/100, ties to even. -/
def fileSizeMB (bytes : Nat) : ℚ :=
  (roundHalfEven ((bytes : ℚ) / (1024 * 1024) * 100) : ℚ) / 100

/-- The record printed by the `except FileNotFoundError` handler
(`message = str(e)`). -/
def fnfRec (m : String) : StatusRecord :=
  { status := "error", message := m,
    error_type := some "FileNotFoundError", details := none }

/-- The record printed by the generic `except Exception` handler:
message `"Processing failed: " + str(e)`, tag `type(e).__name__`. -/
def genericRec (e : PyExc) : StatusRecord :=
  { status := "error", message := "Processing failed: " ++ e.msg,
    error_type := some e.ty, details := none }

/-- The two except-clauses of `process_image`: a `FileNotFoundError`
instance is caught by the first handler (stderr record tagged
`FileNotFoundError`, return 1); every other exception falls through to the
second (return 2, tagged with the exception class name).  `stdout`,
`draws` and `saveAttempted` record what had already happened inside the
try block before the exception. -/
def handleExc (stdout : List StatusRecord) (draws : List DrawCall)
    (saveAttempted : Bool) (e : PyExc) : POut :=
  if e.isFNF then
    { stdout := stdout, stderr := [fnfRec e.msg], draws := draws,
      saveAttempted := saveAttempted, ret := 1 }
  else
    { stdout := stdout, stderr := [genericRec e], draws := draws,
      saveAttempted := saveAttempted, ret := 2 }

/-- Embeds `process_image(input_path, output_path)` run against the
environment `env`, following the source line by line: existence check,
loading record, decode, info record, filters record, filter stage, overlay
record, font size / font selection / measurement / draws, saving record,
save, output-size read, success record. -/
def processImage (env : Env) (input_path output_path : String) : POut :=
  if env.inputExists then
    match env.decode with
    | Except.error e => handleExc [loadingRec] [] false e
    | Except.ok (width, height) =>
      match env.filters with
      | some e => handleExc [loadingRec, infoRec width height, filtersRec] [] false e
      | none =>
        let font_size := fontSizeOf height
        let font := loadFont env.fontAOk env.fontBOk font_size
        let lay := textLayout width height (env.textbbox font)
        match env.drawFail with
        | some e =>
          handleExc [loadingRec, infoRec width height, filtersRec, overlayRec] [] false e
        | none =>
          let draws := drawStage lay.x lay.y (shadowOffset font_size)
          match env.saveFail with
          | some e =>
            handleExc [loadingRec, infoRec width height, filtersRec, overlayRec,
                       savingRec] draws true e
          | none =>
            { stdout := [loadingRec, infoRec width height, filtersRec, overlayRec,
                         savingRec,
                         successRec input_path output_path width height
                           (fileSizeMB env.outputSize)],
              stderr := [], draws := draws, saveAttempted := true, ret := 0 }
  else
    handleExc [] [] false
      { ty := "FileNotFoundError", isFNF := true,
        msg := "Input image not found: " ++ input_path }

/-- The record printed by `main` on a wrong argument count. -/
def invalidArgsRec : StatusRecord :=
  { status := "error",
    message := "Usage: image_processor <input_path> <output_path>",
    error_type := some "InvalidArguments", details := none }

/-- The whole outcome of `main` on a wrong argument count: nothing on
stdout, the single `InvalidArguments` record on stderr, no draws, no save
attempt, exit code 1. -/
def invalidArgsOut : POut :=
  { stdout := [], stderr := [invalidArgsRec], draws := [],
    saveAttempted := false, ret := 1 }

/-- Embeds `main()`: `argv` includes the program name; any length other
than 3 is rejected before `process_image` is called, hence before any
filesystem or image access (only `processImage` consults `env`). -/
def mainRun (env : Env) (argv : List String) : POut :=
  match argv with
  | [_, input_path, output_path] => processImage env input_path output_path
  | _ => invalidArgsOut

/-- The first exception raised inside the try block of `process_image`
once the input path has been confirmed to exist (`none` on a fully
successful run). -/
def firstFailure (env : Env) : Option PyExc :=
  match env.decode with
  | Except.error e => some e
  | Except.ok _ =>
    match env.filters with
    | some e => some e
    | none =>
      match env.drawFail with
      | some e => some e
      | none => env.saveFail

/-- The font size the spec asserts, written over exact rationals:
`round(height * 0.05)`, rounding to the nearest integer.  Stated from the
spec words, for comparison with `fontSizeOf` (which embeds the source). -/
def fontSizeClaimed (height : Nat) : Int := round ((height : ℚ) * (5 / 100))

/-- A sample environment for a fully successful run: the input exists,
decode yields a 200 x 100 image, `arial.ttf` loads, every stage succeeds,
and the written file ends up with 131072 bytes. -/
def envOkSample : Env :=
  { inputExists := true, decode := Except.ok (200, 100), filters := none,
    fontAOk := true, fontBOk := false, textbbox := fun _ => (0, 0, 50, 10),
    drawFail := none, saveFail := none, outputSize := 131072 }

/-- The sample environment with the input file absent. -/
def envMissingInput : Env := { envOkSample with inputExists := false }

/-- The sample environment, except that `img.save` raises a
`FileNotFoundError` (as it does when the output directory is missing). -/
def envSaveFNF : Env :=
  { envOkSample with
    saveFail := some { ty := "FileNotFoundError", isFNF := true,
                       msg := "No such file or directory: missing/out.jpg" } }

/-- The sample environment, except that decode raises PIL
`UnidentifiedImageError` (a corrupt input file). -/
def envDecodeFail : Env :=
  { envOkSample with
    decode := Except.error { ty := "UnidentifiedImageError", isFNF := false,
                             msg := "cannot identify image file" } }

/-! Projection lemmas for the exception handlers. -/

theorem handleExc_ret (s : List StatusRecord) (d : List DrawCall) (sa : Bool)
    (e : PyExc) : (handleExc s d sa e).ret = if e.isFNF then 1 else 2 := by
  unfold handleExc
  split <;> rfl

theorem handleExc_stdout (s : List StatusRecord) (d : List DrawCall) (sa : Bool)
    (e : PyExc) : (handleExc s d sa e).stdout = s := by
  unfold handleExc
  split <;> rfl

theorem handleExc_stderr (s : List StatusRecord) (d : List DrawCall) (sa : Bool)
    (e : PyExc) :
    (handleExc s d sa e).stderr =
      [if e.isFNF then fnfRec e.msg else genericRec e] := by
  unfold handleExc
  split <;> simp_all

theorem handleExc_saveAttempted (s : List StatusRecord) (d : List DrawCall)
    (sa : Bool) (e : PyExc) : (handleExc s d sa e).saveAttempted = sa := by
  unfold handleExc
  split <;> rfl

/-! Helper lemmas about the shadow-ring lists. -/

theorem offsetRange_def (s : Nat) :
    offsetRange s = (List.range (2 * s + 1)).map (fun i : Nat => (i : Int) - (s : Int)) :=
  rfl

theorem mem_offsetRange {s : Nat} {a : Int} :
    a ∈ offsetRange s ↔ -(s : Int) ≤ a ∧ a ≤ s := by
  rw [offsetRange_def]
  constructor
  · intro h
    rcases List.mem_map.1 h with ⟨i, hi, hia⟩
    rw [List.mem_range] at hi
    replace hia : (i : Int) - (s : Int) = a := hia
    omega
  · intro h
    refine List.mem_map.2 ⟨(a + s).toNat, ?_, ?_⟩
    · rw [List.mem_range]
      omega
    · show ((a + s).toNat : Int) - (s : Int) = a
      omega

theorem offsetRange_nodup (s : Nat) : (offsetRange s).Nodup := by
  rw [offsetRange_def]
  refine List.Nodup.map ?_ (List.nodup_range _)
  intro i j hij
  replace hij : (i : Int) - (s : Int) = (j : Int) - (s : Int) := hij
  omega

theorem filterMap_guard {α β : Type} (p : α → Prop) [DecidablePred p]
    (f : α → β) (l : List α) :
    (l.filterMap fun a => if p a then some (f a) else none) =
      (l.filter fun a => decide (p a)).map f := by
  induction l with
  | nil => rfl
  | cons a l ih =>
    by_cases h : p a <;> simp [List.filterMap_cons, List.filter_cons, h, ih]

theorem shadowDraws_eq (x y : Int) (s : Nat) :
    shadowDraws x y s = (offsetRange s).flatMap (fun dx =>
      ((offsetRange s).filter fun dy => decide (dx ≠ 0 ∨ dy ≠ 0)).map
        (fun dy => blackDraw (x + dx) (y + dy))) := by
  unfold shadowDraws
  exact congrArg (List.flatMap (offsetRange s))
    (funext fun dx => filterMap_guard (fun dy => dx ≠ 0 ∨ dy ≠ 0) _ _)

theorem mem_shadowDraws {x y : Int} {s : Nat} {d : DrawCall} :
    d ∈ shadowDraws x y s ↔ ∃ dx dy : Int,
      -(s : Int) ≤ dx ∧ dx ≤ s ∧ -(s : Int) ≤ dy ∧ dy ≤ s ∧
      (dx ≠ 0 ∨ dy ≠ 0) ∧ d = blackDraw (x + dx) (y + dy) := by
  rw [shadowDraws_eq]
  simp only [List.mem_flatMap, List.mem_map, List.mem_filter, mem_offsetRange,
    decide_eq_true_eq]
  constructor
  · rintro ⟨dx, hdx, dy, ⟨⟨hdy1, hdy2⟩, hcond⟩, rfl⟩
    exact ⟨dx, dy, hdx.1, hdx.2, hdy1, hdy2, hcond, rfl⟩
  · rintro ⟨dx, dy, h1, h2, h3, h4, hcond, rfl⟩
    exact ⟨dx, ⟨h1, h2⟩, dy, ⟨⟨h3, h4⟩, hcond⟩, rfl⟩

theorem shadowDraws_nodup (x y : Int) (s : Nat) : (shadowDraws x y s).Nodup := by
  rw [shadowDraws_eq]
  refine List.nodup_flatMap.2 ⟨?_, ?_⟩
  · intro dx _
    refine List.Nodup.map ?_ ((offsetRange_nodup s).filter _)
    intro a b hab
    have := congrArg DrawCall.py hab
    simp only [blackDraw] at this
    omega
  · refine (offsetRange_nodup s).imp ?_
    intro a b hab
    intro d hda hdb
    rcases List.mem_map.1 hda with ⟨da, _, rfl⟩
    rcases List.mem_map.1 hdb with ⟨db, _, hdd⟩
    have := congrArg DrawCall.px hdd
    simp only [blackDraw] at this
    omega

theorem length_flatMap_sum {α β : Type} (l : List α) (f : α → List β) :
    (l.flatMap f).length = (l.map fun a => (f a).length).sum := by
  induction l with
  | nil => rfl
  | cons a l ih => simp [List.flatMap_cons, ih]

theorem length_filter_ne (l : List Int) :
    (l.filter fun a => decide (a ≠ 0)).length + l.count 0 = l.length := by
  induction l with
  | nil => rfl
  | cons a l ih =>
    by_cases h : a = 0
    · subst h
      simp [List.filter_cons, List.count_cons] at ih ⊢
      omega
    · simp [List.filter_cons, List.count_cons, h] at ih ⊢
      omega

theorem sum_map_const_of_count (l : List Int) (c : Nat) (h0 : l.count 0 = 0) :
    (l.map fun dx => if dx = 0 then c - 1 else c).sum = c * l.length := by
  induction l with
  | nil => simp
  | cons a l ih =>
    have ha : ¬a = 0 := by
      intro h
      subst h
      simp [List.count_cons] at h0
    have h0l : l.count 0 = 0 := by
      simpa [List.count_cons, ha] using h0
    simp only [List.map_cons, List.sum_cons, if_neg ha, ih h0l,
      List.length_cons, Nat.mul_succ]
    omega

theorem sum_map_count_one (l : List Int) (c : Nat) (hc : 1 ≤ c)
    (h1 : l.count 0 = 1) :
    (l.map fun dx => if dx = 0 then c - 1 else c).sum = c * l.length - 1 := by
  induction l with
  | nil => simp at h1
  | cons a l ih =>
    by_cases h : a = 0
    · subst h
      have h0 : l.count 0 = 0 := by
        simpa [List.count_cons] using h1
      simp [sum_map_const_of_count l c h0, Nat.mul_succ]
      omega
    · have h1l : l.count 0 = 1 := by
        simpa [List.count_cons, h] using h1
      have hmem : (0 : Int) ∈ l := by
        have : 0 < l.count 0 := by omega
        exact List.count_pos_iff.1 this
      have hlen : 1 ≤ l.length := List.length_pos_of_mem hmem
      have hm : 1 ≤ c * l.length := Nat.one_le_iff_ne_zero.2 (by positivity)
      simp [if_neg h, ih h1l, Nat.mul_succ]
      omega

theorem shadowDraws_length (x y : Int) (s : Nat) :
    (shadowDraws x y s).length = (2 * s + 1) ^ 2 - 1 := by
  rw [shadowDraws_eq, length_flatMap_sum]
  have hcount : (offsetRange s).count 0 = 1 :=
    List.count_eq_one_of_mem (offsetRange_nodup s)
      (mem_offsetRange.2 ⟨by omega, by omega⟩)
  have hlen : (offsetRange s).length = 2 * s + 1 := by
    rw [offsetRange_def, List.length_map, List.length_range]
  have hmap : ((offsetRange s).map fun dx =>
      (((offsetRange s).filter fun dy => decide (dx ≠ 0 ∨ dy ≠ 0)).map
        (fun dy => blackDraw (x + dx) (y + dy))).length) =
      (offsetRange s).map (fun dx => if dx = 0 then (2 * s + 1) - 1 else 2 * s + 1) := by
    refine List.map_congr_left ?_
    intro dx _
    rw [List.length_map]
    by_cases h : dx = 0
    · subst h
      rw [if_pos rfl]
      have hpred : ((offsetRange s).filter fun dy => decide ((0 : Int) ≠ 0 ∨ dy ≠ 0)) =
          ((offsetRange s).filter fun dy => decide (dy ≠ 0)) := by
        refine List.filter_congr ?_
        intro dy _
        simp
      rw [hpred]
      have := length_filter_ne (offsetRange s)
      omega
    · rw [if_neg h, List.filter_eq_self.2, hlen]
      intro a _
      simp [h]
  rw [hmap, sum_map_count_one _ _ (by omega) hcount, hlen, pow_two]

/-- C3: the shadow layer draws the watermark text in fully opaque black
exactly once at (x + dx, y + dy) for every offset pair (dx, dy) with dx
and dy in [-s, +s] excluding (0, 0), where s = max(2, font_size // 30)
with floor division, and at no other position — (2s+1)^2 - 1 draws in
total; the main text is then drawn exactly once at (x, y) in opaque
RGB (200, 230, 255), after all shadow draws. -/
theorem c3_shadow_and_main_draws (x y : Int) (font_size : Nat) :
    (∀ dx dy : Int,
        -(shadowOffset font_size : Int) ≤ dx → dx ≤ shadowOffset font_size →
        -(shadowOffset font_size : Int) ≤ dy → dy ≤ shadowOffset font_size →
        ¬(dx = 0 ∧ dy = 0) →
        (shadowDraws x y (shadowOffset font_size)).count
          (blackDraw (x + dx) (y + dy)) = 1) ∧
    (∀ d ∈ shadowDraws x y (shadowOffset font_size), ∃ dx dy : Int,
        -(shadowOffset font_size : Int) ≤ dx ∧ dx ≤ shadowOffset font_size ∧
        -(shadowOffset font_size : Int) ≤ dy ∧ dy ≤ shadowOffset font_size ∧
        ¬(dx = 0 ∧ dy = 0) ∧ d = blackDraw (x + dx) (y + dy)) ∧
    (shadowDraws x y (shadowOffset font_size)).length =
      (2 * shadowOffset font_size + 1) ^ 2 - 1 ∧
    shadowOffset font_size = max 2 (font_size / 30) ∧
    blackDraw x y = { px := x, py := y, text := watermarkText,
                      fill := (0, 0, 0, 255) } ∧
    drawStage x y (shadowOffset font_size) =
      shadowDraws x y (shadowOffset font_size) ++ [mainDraw x y] ∧
    mainDraw x y = { px := x, py := y, text := watermarkText,
                     fill := (200, 230, 255, 255) } := by
  refine ⟨?_, ?_, shadowDraws_length x y _, rfl, rfl, rfl, rfl⟩
  · intro dx dy h1 h2 h3 h4 h5
    refine List.count_eq_one_of_mem (shadowDraws_nodup x y _)
      (mem_shadowDraws.2 ⟨dx, dy, h1, h2, h3, h4, ?_, rfl⟩)
    tauto
  · intro d hd
    rcases mem_shadowDraws.1 hd with ⟨dx, dy, h1, h2, h3, h4, hcond, rfl⟩
    exact ⟨dx, dy, h1, h2, h3, h4, by tauto, rfl⟩

/-- Witness for C3 at x = 5, y = 7, font_size = 90 (so s = 3): the
offset (1, 0) is drawn exactly once. -/
theorem c3_shadow_and_main_draws_witness :
    (shadowDraws 5 7 (shadowOffset 90)).count (blackDraw (5 + 1) (7 + 0)) = 1 :=
  (c3_shadow_and_main_draws 5 7 90).1 1 0 (by decide) (by decide) (by decide)
    (by decide) (by decide)

/-- C4: for every invocation whose input path does not refer to an
existing file, process_image returns 1, emits exactly one error record to
stderr, with error_type FileNotFoundError and a message containing the
offending path, and never attempts to write the output file. -/
theorem c4_missing_input (env : Env) (i o : String)
    (h : env.inputExists = false) :
    (processImage env i o).ret = 1 ∧
    (processImage env i o).stderr = [fnfRec ("Input image not found: " ++ i)] ∧
    (fnfRec ("Input image not found: " ++ i)).status = "error" ∧
    (fnfRec ("Input image not found: " ++ i)).error_type =
      some "FileNotFoundError" ∧
    (∃ a b : String,
      (fnfRec ("Input image not found: " ++ i)).message = a ++ i ++ b) ∧
    (processImage env i o).saveAttempted = false := by
  have hp : processImage env i o = handleExc [] [] false
      { ty := "FileNotFoundError", isFNF := true,
        msg := "Input image not found: " ++ i } := by
    simp [processImage, h]
  rw [hp]
  refine ⟨rfl, rfl, rfl, rfl, ⟨"Input image not found: ", "", ?_⟩, rfl⟩
  simp [fnfRec]

/-- Witness for C4 on the sample environment with the input absent. -/
theorem c4_missing_input_witness :
    (processImage envMissingInput "in.png" "out.jpg").ret = 1 ∧
    (processImage envMissingInput "in.png" "out.jpg").saveAttempted = false :=
  ⟨(c4_missing_input envMissingInput "in.png" "out.jpg" rfl).1,
   (c4_missing_input envMissingInput "in.png" "out.jpg" rfl).2.2.2.2.2⟩

/-- C5: for every invocation with an argument count other than exactly
two positional arguments after the program name, main emits one
InvalidArguments error record and returns 1, and its outcome does not
depend on the environment at all (no filesystem or image access). -/
theorem c5_invalid_argument_count (env : Env) (argv : List String)
    (h : argv.length ≠ 3) :
    mainRun env argv = invalidArgsOut ∧
    invalidArgsOut.stdout = [] ∧
    invalidArgsOut.stderr = [invalidArgsRec] ∧
    invalidArgsOut.ret = 1 ∧
    invalidArgsRec.status = "error" ∧
    invalidArgsRec.error_type = some "InvalidArguments" ∧
    (∀ env2 : Env, mainRun env2 argv = mainRun env argv) := by
  rcases argv with _ | ⟨a, argv⟩
  · exact ⟨rfl, rfl, rfl, rfl, rfl, rfl, fun env2 => rfl⟩
  rcases argv with _ | ⟨b, argv⟩
  · exact ⟨rfl, rfl, rfl, rfl, rfl, rfl, fun env2 => rfl⟩
  rcases argv with _ | ⟨c, argv⟩
  · exact ⟨rfl, rfl, rfl, rfl, rfl, rfl, fun env2 => rfl⟩
  rcases argv with _ | ⟨d, argv⟩
  · simp at h
  · exact ⟨rfl, rfl, rfl, rfl, rfl, rfl, fun env2 => rfl⟩

/-- Witness for C5 with a single argument. -/
theorem c5_invalid_argument_count_witness :
    mainRun envOkSample ["image_processor", "in.png"] = invalidArgsOut :=
  (c5_invalid_argument_count envOkSample ["image_processor", "in.png"]
    (by decide)).1

/-- C9: font selection tries arial.ttf first, then Arial.ttf, then the
built-in default font, taking the first option that succeeds; it is a
total function, and flipping the success of either truetype load never
changes the return code, stdout or stderr of the run. -/
theorem c9_font_fallback (a b : Bool) (size : Nat) (env : Env) (i o : String) :
    loadFont true b size = Font.truetypeA size ∧
    loadFont false true size = Font.truetypeB size ∧
    loadFont false false size = Font.defaultFont ∧
    (processImage { env with fontAOk := a, fontBOk := b } i o).ret =
      (processImage env i o).ret ∧
    (processImage { env with fontAOk := a, fontBOk := b } i o).stdout =
      (processImage env i o).stdout ∧
    (processImage { env with fontAOk := a, fontBOk := b } i o).stderr =
      (processImage env i o).stderr := by
  obtain ⟨ie, dec, fil, fa, fb, bb, df, sf, os⟩ := env
  refine ⟨by simp [loadFont], by simp [loadFont], by simp [loadFont],
    ?_, ?_, ?_⟩ <;>
    cases ie <;> rcases dec with e | ⟨W, H⟩ <;> rcases fil with _ | e2 <;>
      rcases df with _ | e3 <;> rcases sf with _ | e4 <;>
      simp [processImage, handleExc_ret, handleExc_stdout, handleExc_stderr]

/-- C10: when the input path does not exist nothing at all is written to
stdout; the only output of the invocation is the single error record on
stderr. -/
theorem c10_no_stdout_on_missing_input (env : Env) (i o : String)
    (h : env.inputExists = false) :
    (processImage env i o).stdout = [] ∧
    ∃ r : StatusRecord, (processImage env i o).stderr = [r] ∧
      r.status = "error" := by
  have hp : processImage env i o = handleExc [] [] false
      { ty := "FileNotFoundError", isFNF := true,
        msg := "Input image not found: " ++ i } := by
    simp [processImage, h]
  rw [hp]
  exact ⟨rfl, fnfRec ("Input image not found: " ++ i), rfl, rfl⟩

/-- Witness for C10 on the sample environment with the input absent. -/
theorem c10_no_stdout_on_missing_input_witness :
    (processImage envMissingInput "in.png" "out.jpg").stdout = [] :=
  (c10_no_stdout_on_missing_input envMissingInput "in.png" "out.jpg" rfl).1

/-- Counterexample to C1 as stated: in an environment where the input
path exists and every stage up to saving succeeds, but `img.save` raises
a FileNotFoundError (as it does when the output directory is missing),
the failure occurs after the input path was confirmed to exist, during
encode/write — yet the process returns exit code 1, not 2, because the
first except-clause catches every FileNotFoundError, not only the one
raised by the input check. -/
theorem c1_counterexample :
    envSaveFNF.inputExists = true ∧
    firstFailure envSaveFNF =
      some { ty := "FileNotFoundError", isFNF := true,
             msg := "No such file or directory: missing/out.jpg" } ∧
    (processImage envSaveFNF "in.png" "missing/out.jpg").ret = 1 ∧
    (processImage envSaveFNF "in.png" "missing/out.jpg").ret ≠ 2 := by
  refine ⟨rfl, rfl, rfl, ?_⟩
  intro h
  exact absurd h (by decide)

/-- C1 as amended: once the input path has been confirmed to exist, a
failing stage (decode, filters, drawing, or encode/write) ends the run
with exit code 2 and an error record tagged with the runtime failure
class name — unless the runtime failure is itself a FileNotFoundError, in
which case the first except-clause catches it: exit code 1 and tag
FileNotFoundError. -/
theorem c1_failure_exit_codes (env : Env) (i o : String) (e : PyExc)
    (hex : env.inputExists = true) (hf : firstFailure env = some e) :
    (processImage env i o).ret = (if e.isFNF then 1 else 2) ∧
    (processImage env i o).stderr =
      [if e.isFNF then fnfRec e.msg else genericRec e] := by
  obtain ⟨ie, dec, fil, fa, fb, bb, df, sf, os⟩ := env
  subst hex
  rcases dec with e0 | ⟨W, H⟩ <;> rcases fil with _ | e2 <;>
    rcases df with _ | e3 <;> rcases sf with _ | e4 <;>
    simp [firstFailure] at hf <;> subst hf <;>
    simp [processImage, handleExc_ret, handleExc_stderr]

/-- Witness for C1 (amended) on an environment whose decode raises a
non-FileNotFoundError exception: exit code 2, tagged with the class
name. -/
theorem c1_failure_exit_codes_witness :
    (processImage envDecodeFail "in.png" "out.jpg").ret = 2 ∧
    (processImage envDecodeFail "in.png" "out.jpg").stderr =
      [genericRec { ty := "UnidentifiedImageError", isFNF := false,
                    msg := "cannot identify image file" }] := by
  have h := c1_failure_exit_codes envDecodeFail "in.png" "out.jpg"
    { ty := "UnidentifiedImageError", isFNF := false,
      msg := "cannot identify image file" } rfl rfl
  simpa using h

/-- Counterexample to C2 as stated: at height 33 the code computes
`int(33 * 0.05) = 1` (truncation), while rounding to the nearest integer
gives `round(1.65) = 2`. -/
theorem c2_counterexample :
    fontSizeOf 33 = 1 ∧ fontSizeClaimed 33 = 2 ∧
    (fontSizeOf 33 : Int) ≠ fontSizeClaimed 33 := by
  have h1 : fontSizeOf 33 = 1 := rfl
  have h2 : fontSizeClaimed 33 = 2 := by
    norm_num [fontSizeClaimed, round_eq]
  refine ⟨h1, h2, ?_⟩
  rw [h1, h2]
  decide

/-- C2 as amended: the font size equals `int(height * 0.05)`, which
truncates (floors) rather than rounds: it is `height / 20` by natural
floor division, for every height below 2^52 (far above any decodable
image height). -/
theorem c2_font_size_floor (height : Nat) (hb : height < 2 ^ 52) :
    fontSizeOf height = height / 20 := by
  unfold fontSizeOf
  omega

/-- Witness for C2 (amended) at height 100: font size 5. -/
theorem c2_font_size_floor_witness :
    fontSizeOf 100 = 100 / 20 :=
  c2_font_size_floor 100 (by norm_num)

/-- C6: the watermark text width is right - left, the text height is
bottom - top, and the drawing origin is
x = (width - text_width) // 2, y = (height - text_height) // 2 with
integer floor division; on a successful run the main text really is
drawn at that origin (it is the last draw call issued). -/
theorem c6_text_layout_centering (env : Env) (i o : String) (W H : Nat)
    (l t r b : Int)
    (hex : env.inputExists = true) (hdec : env.decode = Except.ok (W, H))
    (hfil : env.filters = none) (hdraw : env.drawFail = none)
    (hsave : env.saveFail = none)
    (hbb : env.textbbox (loadFont env.fontAOk env.fontBOk (fontSizeOf H)) =
      (l, t, r, b)) :
    (textLayout W H (l, t, r, b)).text_width = r - l ∧
    (textLayout W H (l, t, r, b)).text_height = b - t ∧
    (textLayout W H (l, t, r, b)).x = Int.fdiv ((W : Int) - (r - l)) 2 ∧
    (textLayout W H (l, t, r, b)).y = Int.fdiv ((H : Int) - (b - t)) 2 ∧
    (processImage env i o).draws.getLast? =
      some (mainDraw (Int.fdiv ((W : Int) - (r - l)) 2)
        (Int.fdiv ((H : Int) - (b - t)) 2)) := by
  obtain ⟨ie, dec, fil, fa, fb, bb, df, sf, os⟩ := env
  subst hex hdec hfil hdraw hsave
  refine ⟨rfl, rfl, rfl, rfl, ?_⟩
  simp only [processImage, drawStage] at *
  rw [hbb]
  simp [textLayout, List.getLast?_concat]

/-- Witness for C6 on the sample environment (200 x 100 image, measured
box (0, 0, 50, 10)): the main text is drawn at ((200 - 50) // 2,
(100 - 10) // 2) = (75, 45). -/
theorem c6_text_layout_centering_witness :
    (processImage envOkSample "in.png" "out.jpg").draws.getLast? =
      some (mainDraw (Int.fdiv ((200 : Int) - (50 - 0)) 2)
        (Int.fdiv ((100 : Int) - (10 - 0)) 2)) :=
  (c6_text_layout_centering envOkSample "in.png" "out.jpg" 200 100 0 0 50 10
    rfl rfl rfl rfl rfl rfl).2.2.2.2

/-- C7: on every successful run, the final success record carries a
details object whose input_path and output_path are the invocation
arguments, whose dimensions string comes from the decoded size (taken
before any filter runs), and whose file_size_mb is the written file byte
size divided by 1048576 and rounded to 2 decimal places. -/
theorem c7_success_details (env : Env) (i o : String) (W H : Nat)
    (hex : env.inputExists = true) (hdec : env.decode = Except.ok (W, H))
    (hfil : env.filters = none) (hdraw : env.drawFail = none)
    (hsave : env.saveFail = none) :
    (processImage env i o).ret = 0 ∧
    ∃ d : SuccessDetails,
      (processImage env i o).stdout.getLast? = some
        { status := "success", message := "Image processed successfully",
          error_type := none, details := some d } ∧
      d.input_path = i ∧ d.output_path = o ∧
      d.dimensions = dimsString W H ∧
      d.file_size_mb =
        (roundHalfEven ((env.outputSize : ℚ) / 1048576 * 100) : ℚ) / 100 := by
  obtain ⟨ie, dec, fil, fa, fb, bb, df, sf, os⟩ := env
  subst hex hdec hfil hdraw hsave
  refine ⟨rfl,
    ⟨{ input_path := i, output_path := o, dimensions := dimsString W H,
       file_size_mb := fileSizeMB os }, rfl, rfl, rfl, rfl, ?_⟩⟩
  norm_num [fileSizeMB]

/-- Witness for C7 on the sample environment. -/
theorem c7_success_details_witness :
    (processImage envOkSample "in.png" "out.jpg").ret = 0 :=
  (c7_success_details envOkSample "in.png" "out.jpg" 200 100
    rfl rfl rfl rfl rfl).1

/-- C8: on every successful run exactly six status records are written
to stdout, in order: loading, info (its message containing the decoded
dimensions), processing, processing, saving, success — and no error
record is written anywhere. -/
theorem c8_status_sequence (env : Env) (i o : String) (W H : Nat)
    (hex : env.inputExists = true) (hdec : env.decode = Except.ok (W, H))
    (hfil : env.filters = none) (hdraw : env.drawFail = none)
    (hsave : env.saveFail = none) :
    (processImage env i o).stdout =
      [loadingRec, infoRec W H, filtersRec, overlayRec, savingRec,
       successRec i o W H (fileSizeMB env.outputSize)] ∧
    (processImage env i o).stderr = [] ∧
    loadingRec.status = "loading" ∧
    (infoRec W H).status = "info" ∧
    (∃ a b : String, (infoRec W H).message = a ++ dimsString W H ++ b) ∧
    filtersRec.status = "processing" ∧
    overlayRec.status = "processing" ∧
    savingRec.status = "saving" ∧
    (successRec i o W H (fileSizeMB env.outputSize)).status = "success" ∧
    (∀ rec ∈ (processImage env i o).stdout, rec.status ≠ "error") := by
  obtain ⟨ie, dec, fil, fa, fb, bb, df, sf, os⟩ := env
  subst hex hdec hfil hdraw hsave
  refine ⟨rfl, rfl, rfl, rfl, ⟨"Image loaded: ", " pixels", rfl⟩,
    rfl, rfl, rfl, rfl, ?_⟩
  intro rec hrec
  have hs : (processImage
      { inputExists := true, decode := Except.ok (W, H), filters := none,
        fontAOk := fa, fontBOk := fb, textbbox := bb, drawFail := none,
        saveFail := none, outputSize := os } i o).stdout =
      [loadingRec, infoRec W H, filtersRec, overlayRec, savingRec,
       successRec i o W H (fileSizeMB os)] := rfl
  rw [hs] at hrec
  rw [List.mem_cons, List.mem_cons, List.mem_cons, List.mem_cons,
    List.mem_cons, List.mem_singleton] at hrec
  rcases hrec with rfl | rfl | rfl | rfl | rfl | rfl <;>
    simp [loadingRec, infoRec, filtersRec, overlayRec, savingRec, successRec]

/-- Witness for C8 on the sample environment. -/
theorem c8_status_sequence_witness :
    (processImage envOkSample "in.png" "out.jpg").stderr = [] :=
  (c8_status_sequence envOkSample "in.png" "out.jpg" 200 100
    rfl rfl rfl rfl rfl).2.1

end ImageProcessor
